import Mathlib

/-
  Verification development for the academia repository: a shallow embedding of
  the aggregation layer (src/unnamed/part_001, services/api.ts), the class-code
  join workflow (src/unnamed/part_004 StudentDashboard together with the
  part_001 services), and the row-level-security policy sets from the SQL
  migrations, with theorems settling the frozen claims about them.
-/

namespace Academia

/-- Grade row, after the `Grade` type in src/src/lib/supabase.ts and the
`grades` table of src/unnamed/part_000.  The numeric columns (`grade_value`,
`max_value`, `weight`) are embedded as rationals; the identifier columns
`enrollment_id` and `teacher_id` as naturals.  The string metadata columns
(`id`, `grade_type`, `description`, `graded_at`, `created_at`) play no role in
any claim and are omitted. -/
structure Grade where
  enrollment_id : Nat
  teacher_id : Nat
  grade_value : ℚ
  max_value : ℚ
  weight : ℚ
  deriving DecidableEq, Repr

/-- gradeService.calculateAverage, src/unnamed/part_001 lines 288-300:
empty list returns 0; zero total weight returns 0; otherwise the foldl of
`sum + (grade_value / max_value * 100) * weight` divided by the foldl of
`sum + weight` (both reductions start at 0, mirroring the two `reduce`
calls). -/
def calculateAverage (grades : List Grade) : ℚ :=
  if grades.length = 0 then 0
  else if grades.foldl (fun sum g => sum + g.weight) 0 = 0 then 0
  else (grades.foldl (fun sum g => sum + g.grade_value / g.max_value * 100 * g.weight) 0)
        / (grades.foldl (fun sum g => sum + g.weight) 0)

/-- The weighted-average formula exactly as the spec words it (section 4.3):
0 on the empty list, 0 when the total weight is 0, and otherwise
the sum over the grades of `(grade_value / max_value) * 100 * weight`
divided by the sum of the weights. -/
def calculateAverageSpec (grades : List Grade) : ℚ :=
  if grades = [] then 0
  else if (grades.map Grade.weight).sum = 0 then 0
  else ((grades.map (fun g => g.grade_value / g.max_value * 100 * g.weight)).sum)
        / (grades.map Grade.weight).sum

/-- The left fold accumulating `+ f x` from `a` is `a` plus the sum of the
mapped list. -/
theorem foldl_add_map_sum {α : Type} (f : α → ℚ) :
    ∀ (l : List α) (a : ℚ), l.foldl (fun s x => s + f x) a = a + (l.map f).sum
  | [], a => by simp
  | x :: xs, a => by
    simp only [List.foldl_cons, List.map_cons, List.sum_cons]
    rw [foldl_add_map_sum f xs (a + f x), add_assoc]

/-- The implementation agrees with the spec formula on every list. -/
theorem calculateAverage_eq_spec (grades : List Grade) :
    calculateAverage grades = calculateAverageSpec grades := by
  unfold calculateAverage calculateAverageSpec
  rcases eq_or_ne grades [] with h | h
  · subst h; simp
  · rw [if_neg (by simpa using h), if_neg h]
    rw [foldl_add_map_sum, foldl_add_map_sum, zero_add, zero_add]

/-- CHECK constraints on the `grades` table, src/unnamed/part_000 lines
143-145: `grade_value >= 0`, `max_value > 0`, `weight >= 0 AND weight <= 1`. -/
def gradeChecks (g : Grade) : Prop :=
  0 ≤ g.grade_value ∧ 0 < g.max_value ∧ 0 ≤ g.weight ∧ g.weight ≤ 1

instance (g : Grade) : Decidable (gradeChecks g) := by
  unfold gradeChecks; infer_instance

/-- C2: calculateAverage is the weighted mean of per-item percentages: 0 on the
empty list, 0 when the summed weight is 0, and otherwise the sum over the
grades of `(grade_value / max_value) * 100 * weight` divided by the summed
weight; on `[{value:80, max:100, weight:1}, {value:45, max:50, weight:1}]` it
returns exactly 85. -/
theorem C2_weighted_average_formula :
    (∀ grades : List Grade, calculateAverage grades = calculateAverageSpec grades) ∧
    calculateAverage [⟨1, 2, 80, 100, 1⟩, ⟨1, 2, 45, 50, 1⟩] = 85 :=
  ⟨calculateAverage_eq_spec, by norm_num [calculateAverage, List.foldl]⟩

/-- C3: when every grade passes the storage CHECK constraints and has
`grade_value ≤ max_value`, the weighted average lies in [0, 100]. -/
theorem C3_weighted_average_in_range (grades : List Grade)
    (hchecks : ∀ g ∈ grades, gradeChecks g)
    (hle : ∀ g ∈ grades, g.grade_value ≤ g.max_value) :
    0 ≤ calculateAverage grades ∧ calculateAverage grades ≤ 100 := by
  rw [calculateAverage_eq_spec]
  unfold calculateAverageSpec
  rcases eq_or_ne grades [] with hnil | hnil
  · subst hnil; simp
  · rw [if_neg hnil]
    by_cases htw : (grades.map Grade.weight).sum = 0
    · rw [if_pos htw]; norm_num
    · rw [if_neg htw]
      have hw_nonneg : 0 ≤ (grades.map Grade.weight).sum := by
        apply List.sum_nonneg
        intro x hx
        obtain ⟨g, hg, rfl⟩ := List.mem_map.mp hx
        exact (hchecks g hg).2.2.1
      have hw_pos : 0 < (grades.map Grade.weight).sum :=
        lt_of_le_of_ne hw_nonneg (Ne.symm htw)
      have hnum_nonneg :
          0 ≤ (grades.map (fun g => g.grade_value / g.max_value * 100 * g.weight)).sum := by
        apply List.sum_nonneg
        intro x hx
        obtain ⟨g, hg, rfl⟩ := List.mem_map.mp hx
        have h1 : (0:ℚ) ≤ g.grade_value / g.max_value :=
          div_nonneg (hchecks g hg).1 (le_of_lt (hchecks g hg).2.1)
        have h2 : (0:ℚ) ≤ g.grade_value / g.max_value * 100 := by positivity
        exact mul_nonneg h2 (hchecks g hg).2.2.1
      have hnum_le :
          (grades.map (fun g => g.grade_value / g.max_value * 100 * g.weight)).sum
            ≤ (grades.map (fun g => 100 * g.weight)).sum := by
        apply List.sum_le_sum
        intro g hg
        have hratio : g.grade_value / g.max_value ≤ 1 :=
          (div_le_one (hchecks g hg).2.1).mpr (hle g hg)
        have h100 : g.grade_value / g.max_value * 100 ≤ 100 := by
          nlinarith [hratio]
        exact mul_le_mul_of_nonneg_right h100 (hchecks g hg).2.2.1
      have hsum_mul : (grades.map (fun g => 100 * g.weight)).sum
          = 100 * (grades.map Grade.weight).sum := by
        rw [← List.sum_map_mul_left]
      constructor
      · exact div_nonneg hnum_nonneg hw_nonneg
      · rw [div_le_iff₀ hw_pos]
        calc (grades.map (fun g => g.grade_value / g.max_value * 100 * g.weight)).sum
            ≤ (grades.map (fun g => 100 * g.weight)).sum := hnum_le
          _ = 100 * (grades.map Grade.weight).sum := hsum_mul

/-- Concrete grade list used to witness C3. -/
def c3List : List Grade := [⟨1, 2, 3, 4, 1/2⟩, ⟨1, 2, 0, 5, 1⟩]

theorem C3_witness :
    (∀ g ∈ c3List, gradeChecks g) ∧ (∀ g ∈ c3List, g.grade_value ≤ g.max_value) ∧
    (0 ≤ calculateAverage c3List ∧ calculateAverage c3List ≤ 100) :=
  ⟨by intro g hg; fin_cases hg <;> norm_num [gradeChecks],
    by intro g hg; fin_cases hg <;> norm_num,
    C3_weighted_average_in_range c3List
      (by intro g hg; fin_cases hg <;> norm_num [gradeChecks])
      (by intro g hg; fin_cases hg <;> norm_num)⟩

/-- Variant of calculateAverage that makes the partiality of the per-grade
division `grade_value / max_value` explicit, following the claim's safety
reading: the source guards only the empty-list and zero-total-weight cases, so
once both guards have been passed the division is performed unguarded, and the
result is a well-defined number only when no grade has `max_value = 0`; that
situation is mapped to `none` here. -/
def calculateAverageChecked (grades : List Grade) : Option ℚ :=
  if grades.length = 0 then some 0
  else if grades.foldl (fun sum g => sum + g.weight) 0 = 0 then some 0
  else if grades.any (fun g => g.max_value == 0) then none
  else some ((grades.foldl (fun sum g => sum + g.grade_value / g.max_value * 100 * g.weight) 0)
        / (grades.foldl (fun sum g => sum + g.weight) 0))

/-- Non-empty grade list with positive total weight containing a grade with
`max_value = 0`: it passes both of calculateAverage's guards yet reaches an
undefined division. -/
def c10BadGrades : List Grade := [⟨1, 2, 5, 0, 1⟩]

/-- Concrete valid grade list used to witness C10. -/
def c10GoodGrades : List Grade := [⟨1, 2, 1, 2, 1⟩]

/-- C10: the storage CHECK constraints force `max_value > 0`; whenever every
grade has positive `max_value` the unguarded computation agrees with the
checked one; and the only guards in the function itself are the empty-list and
zero-total-weight cases, so a list that passes both guards but contains a
grade with `max_value = 0` reaches the undefined division. -/
theorem C10_unguarded_division :
    (∀ g : Grade, gradeChecks g → 0 < g.max_value) ∧
    (∀ grades : List Grade, (∀ g ∈ grades, 0 < g.max_value) →
        calculateAverageChecked grades = some (calculateAverage grades)) ∧
    (calculateAverageChecked c10BadGrades = none ∧
      c10BadGrades.length ≠ 0 ∧
      c10BadGrades.foldl (fun sum g => sum + g.weight) 0 ≠ 0) := by
  refine ⟨fun g hg => hg.2.1, ?_,
    by norm_num [calculateAverageChecked, c10BadGrades, List.foldl],
    by norm_num [c10BadGrades],
    by norm_num [c10BadGrades, List.foldl]⟩
  intro grades hmax
  unfold calculateAverageChecked calculateAverage
  by_cases h0 : grades.length = 0
  · rw [if_pos h0, if_pos h0]
  · rw [if_neg h0, if_neg h0]
    by_cases htw : grades.foldl (fun sum g => sum + g.weight) 0 = 0
    · rw [if_pos htw, if_pos htw]
    · rw [if_neg htw, if_neg htw]
      have hany : (grades.any fun g => g.max_value == 0) = false := by
        rw [List.any_eq_false]
        intro g hg
        simp only [beq_iff_eq]
        exact ne_of_gt (hmax g hg)
      simp [hany]

theorem C10_witness :
    (gradeChecks ⟨1, 2, 1, 2, 1⟩ ∧ 0 < (⟨1, 2, 1, 2, 1⟩ : Grade).max_value) ∧
    ((∀ g ∈ c10GoodGrades, 0 < g.max_value) ∧
      calculateAverageChecked c10GoodGrades = some (calculateAverage c10GoodGrades)) :=
  ⟨⟨by norm_num [gradeChecks], C10_unguarded_division.1 ⟨1, 2, 1, 2, 1⟩ (by norm_num [gradeChecks])⟩,
    ⟨by intro g hg; fin_cases hg; norm_num,
      C10_unguarded_division.2.1 c10GoodGrades (by intro g hg; fin_cases hg; norm_num)⟩⟩

/-- Attendance status values, after the `Attendance` type of
src/src/lib/supabase.ts and the CHECK constraint of the `attendance` table in
src/unnamed/part_000 line 157. -/
inductive AttendanceStatus where
  | present | absent | late | excused
  deriving DecidableEq, BEq, Repr

/-- Attendance row, after the `Attendance` type in src/src/lib/supabase.ts;
the string metadata columns (`id`, `date`, `notes`, `created_at`) play no role
in the rate computation and are omitted. -/
structure Attendance where
  enrollment_id : Nat
  teacher_id : Nat
  status : AttendanceStatus
  deriving DecidableEq, Repr

/-- attendanceService.calculateAttendanceRate, src/unnamed/part_001 lines
343-347: 0 on the empty list, otherwise the length of the sublist filtered on
`status === present`, divided by the total length, times 100. -/
def calculateAttendanceRate (attendance : List Attendance) : ℚ :=
  if attendance.length = 0 then 0
  else ((attendance.filter (fun a => a.status == .present)).length : ℚ)
        / (attendance.length : ℚ) * 100

/-- The attendance-rate formula exactly as the spec words it (section 4.3):
0 on the empty list, otherwise the count of records whose status is exactly
`present` divided by the record count, times 100. -/
def attendanceRateSpec (records : List Attendance) : ℚ :=
  if records = [] then 0
  else ((records.countP (fun a => a.status == .present)) : ℚ)
        / (records.length : ℚ) * 100

/-- C4: calculateAttendanceRate agrees with the spec formula on every list;
one record each of present, absent, late and excused gives exactly 25; and a
single late or excused record scores 0, identically to a single absent
record. -/
theorem C4_attendance_rate_formula :
    (∀ records : List Attendance, calculateAttendanceRate records = attendanceRateSpec records) ∧
    calculateAttendanceRate [⟨1, 2, .present⟩, ⟨1, 2, .absent⟩, ⟨1, 2, .late⟩, ⟨1, 2, .excused⟩]
        = 25 ∧
    calculateAttendanceRate [⟨1, 2, .late⟩] = 0 ∧
    calculateAttendanceRate [⟨1, 2, .excused⟩] = 0 ∧
    calculateAttendanceRate [⟨1, 2, .absent⟩] = 0 := by
  refine ⟨?_, ?_, ?_, ?_, ?_⟩
  · intro records
    unfold calculateAttendanceRate attendanceRateSpec
    rcases eq_or_ne records [] with h | h
    · subst h; simp
    · rw [if_neg (by simpa using h), if_neg h, List.countP_eq_length_filter]
  · have h1 : ([⟨1, 2, .present⟩, ⟨1, 2, .absent⟩, ⟨1, 2, .late⟩, ⟨1, 2, .excused⟩] :
        List Attendance).filter (fun a => a.status == .present) = [⟨1, 2, .present⟩] := rfl
    norm_num [calculateAttendanceRate, h1]
  · have h1 : ([⟨1, 2, .late⟩] : List Attendance).filter
        (fun a => a.status == .present) = [] := rfl
    norm_num [calculateAttendanceRate, h1]
  · have h1 : ([⟨1, 2, .excused⟩] : List Attendance).filter
        (fun a => a.status == .present) = [] := rfl
    norm_num [calculateAttendanceRate, h1]
  · have h1 : ([⟨1, 2, .absent⟩] : List Attendance).filter
        (fun a => a.status == .present) = [] := rfl
    norm_num [calculateAttendanceRate, h1]

/-- Academic-term derivation used when a student joins a class, after
enrollmentService.enrollInClass, src/unnamed/part_001 lines 220-223: the
academic year is the calendar year and the semester is Fall exactly when the
zero-indexed month is at least 7 (`currentMonth >= 7 ? 'Fall' : 'Spring'`). -/
inductive Semester where
  | spring | fall
  deriving DecidableEq, BEq, Repr

/-- The (academic_year, semester) pair computed from the wall-clock date,
passed in as calendar year and zero-indexed month. -/
def currentTerm (year month : Nat) : Nat × Semester :=
  (year, if month ≥ 7 then .fall else .spring)

/-- C5: the enrollment's academic year equals the calendar year, the semester
is Fall exactly when the zero-indexed month is at least 7, and at the
boundary July (month-index 6) gives Spring while August (month-index 7)
gives Fall. -/
theorem C5_academic_term_derivation :
    (∀ year month : Nat, (currentTerm year month).1 = year) ∧
    (∀ year month : Nat, ((currentTerm year month).2 = Semester.fall ↔ 7 ≤ month)) ∧
    currentTerm 2025 6 = (2025, Semester.spring) ∧
    currentTerm 2025 7 = (2025, Semester.fall) := by
  refine ⟨fun y m => rfl, ?_, by decide, by decide⟩
  intro year month
  unfold currentTerm
  by_cases h : 7 ≤ month
  · simp [h]
  · simp [h]

/-- The code generator's alphabet, teacherClassService.generateClassCode,
src/unnamed/part_001 line 102. -/
def charsList : List Char := "ABCDEFGHIJKLMNOPQRSTUVWXYZ0123456789".toList

/-- teacherClassService.generateClassCode, src/unnamed/part_001 lines 101-108:
six iterations, each appending the character of the alphabet indexed by
`Math.floor(Math.random() * chars.length)`.  The i-th random draw is modelled
by `r i % charsList.length`, which ranges over exactly the indices the source
expression can produce; the default character of `getD` is never used. -/
def generateClassCode (r : Nat → Nat) : List Char :=
  (List.range 6).foldl (fun code i => code ++ [charsList.getD (r i % charsList.length) 'A']) []

/-- Character class of the pattern `[A-Z0-9]` from the claim. -/
def isCodeChar (c : Char) : Bool :=
  ('A' ≤ c && c ≤ 'Z') || ('0' ≤ c && c ≤ '9')

/-- JavaScript `String.prototype.trim` on a character list: whitespace removed
from both ends. -/
def trimChars (s : List Char) : List Char :=
  ((s.dropWhile Char.isWhitespace).reverse.dropWhile Char.isWhitespace).reverse

/-- Canonicalization applied to a submitted code by handleJoinClass,
src/unnamed/part_004 line 455: `classCode.trim().toUpperCase()`. -/
def canonicalizeCode (s : List Char) : List Char :=
  (trimChars s).map Char.toUpper

theorem foldl_append_map {α β : Type} (f : α → β) :
    ∀ (l : List α) (init : List β), l.foldl (fun acc i => acc ++ [f i]) init = init ++ l.map f
  | [], init => by simp
  | i :: is, init => by
    simp only [List.foldl_cons, List.map_cons]
    rw [foldl_append_map f is (init ++ [f i]), List.append_assoc]
    rfl

theorem generateClassCode_eq_map (r : Nat → Nat) :
    generateClassCode r
      = (List.range 6).map (fun i => charsList.getD (r i % charsList.length) 'A') := by
  unfold generateClassCode
  rw [foldl_append_map]
  rfl

theorem getD_mem_charsList (n : Nat) : charsList.getD (n % charsList.length) 'A' ∈ charsList := by
  have hlt : n % charsList.length < charsList.length := Nat.mod_lt _ (by decide)
  rw [List.getD_eq_getElem charsList 'A' hlt]
  exact List.getElem_mem hlt

/-- Every alphabet character matches `[A-Z0-9]`, is not whitespace, and is
fixed by uppercasing. -/
theorem charsList_spec : ∀ c ∈ charsList,
    isCodeChar c = true ∧ Char.isWhitespace c = false ∧ Char.toUpper c = c := by decide

theorem dropWhile_eq_self_of_all {p : Char → Bool} :
    ∀ l : List Char, (∀ c ∈ l, p c = false) → l.dropWhile p = l
  | [], _ => rfl
  | c :: cs, h => by
    simp [List.dropWhile_cons, h c (List.mem_cons_self c cs)]

theorem trimChars_eq_self (l : List Char) (h : ∀ c ∈ l, Char.isWhitespace c = false) :
    trimChars l = l := by
  unfold trimChars
  rw [dropWhile_eq_self_of_all l h,
    dropWhile_eq_self_of_all l.reverse (fun c hc => h c (List.mem_reverse.mp hc)),
    List.reverse_reverse]

theorem map_eq_self_of {f : Char → Char} :
    ∀ l : List Char, (∀ c ∈ l, f c = c) → l.map f = l
  | [], _ => rfl
  | c :: cs, h => by
    simp only [List.map_cons]
    rw [h c (List.mem_cons_self c cs),
      map_eq_self_of cs (fun x hx => h x (List.mem_cons_of_mem c hx))]

/-- C8: every generated class code has length exactly 6, consists only of
characters from A-Z and 0-9, and is fixed by the canonicalization (trim and
uppercase) applied to submitted codes, hence matches the canonical pattern. -/
theorem C8_class_code_format (r : Nat → Nat) :
    (generateClassCode r).length = 6 ∧
    (generateClassCode r).all isCodeChar = true ∧
    canonicalizeCode (generateClassCode r) = generateClassCode r := by
  have hmem : ∀ c ∈ generateClassCode r, c ∈ charsList := by
    rw [generateClassCode_eq_map]
    intro c hc
    obtain ⟨i, _, rfl⟩ := List.mem_map.mp hc
    exact getD_mem_charsList (r i)
  refine ⟨?_, ?_, ?_⟩
  · rw [generateClassCode_eq_map]
    simp
  · rw [List.all_eq_true]
    intro c hc
    exact (charsList_spec c (hmem c hc)).1
  · unfold canonicalizeCode
    rw [trimChars_eq_self _ (fun c hc => (charsList_spec c (hmem c hc)).2.1),
      map_eq_self_of _ (fun c hc => (charsList_spec c (hmem c hc)).2.2)]

/-- Row of the `teacher_classes` table as used by the join workflow
(src/unnamed/part_001 teacherClassService): identifier, join code, active
flag and owning teacher. -/
structure TeacherClass where
  id : Nat
  code : List Char
  is_active : Bool
  teacher_id : Nat
  deriving DecidableEq, Repr

/-- Row of the `student_enrollments` table,
src/supabase/migrations/20251102022358_fix_teachers_create_classes.sql lines
115-123. -/
structure StudentEnrollment where
  id : Nat
  student_id : Nat
  class_id : Nat
  academic_year : Nat
  semester : Semester
  deriving DecidableEq, Repr

/-- The slice of database state the join workflow reads and writes. -/
structure JoinDB where
  classes : List TeacherClass
  enrollments : List StudentEnrollment
  deriving DecidableEq, Repr

/-- teacherClassService.getClassByCode, src/unnamed/part_001 lines 54-63:
`maybeSingle` over rows with the given code and `is_active = true`. -/
def getClassByCode (db : JoinDB) (code : List Char) : Option TeacherClass :=
  db.classes.find? (fun c => c.code == code && c.is_active)

/-- enrollmentService.isEnrolled, src/unnamed/part_001 lines 209-218:
`maybeSingle` over rows with the given student and class; the academic term is
not part of the filter. -/
def isEnrolled (db : JoinDB) (studentId classId : Nat) : Bool :=
  (db.enrollments.find? (fun e => e.student_id == studentId && e.class_id == classId)).isSome

/-- The UNIQUE(student_id, class_id, academic_year, semester) constraint of
`student_enrollments`
(src/supabase/migrations/20251102022358_fix_teachers_create_classes.sql line
122): true when inserting this key would collide with an existing row. -/
def enrollmentConflict (db : JoinDB) (studentId classId year : Nat) (sem : Semester) : Bool :=
  db.enrollments.any (fun e => e.student_id == studentId && e.class_id == classId
    && e.academic_year == year && e.semester == sem)

/-- enrollmentService.enrollInClass, src/unnamed/part_001 lines 220-237:
derive the current academic term from the wall clock and insert the
enrollment row; `none` models the insert error thrown on a unique-constraint
violation. -/
def enrollInClass (db : JoinDB) (studentId classId year month newId : Nat) :
    Option JoinDB :=
  let t := currentTerm year month
  if enrollmentConflict db studentId classId t.1 t.2 then none
  else some { db with
    enrollments := db.enrollments ++ [⟨newId, studentId, classId, t.1, t.2⟩] }

/-- Outcomes of the join workflow surfaced by handleJoinClass,
src/unnamed/part_004 lines 448-478: early return on an all-whitespace code,
`Codigo de clase invalido` when the lookup misses, `Ya estas inscrito` when
the student already has an enrollment for the class, the generic catch branch
on an insert error, and success. -/
inductive JoinOutcome where
  | noop | notFound | alreadyEnrolled | insertConflict | joined
  deriving DecidableEq, Repr

/-- handleJoinClass, src/unnamed/part_004 lines 448-478, composed with the
part_001 service functions it invokes: guard on the trimmed code being
non-empty, look up the class by the canonicalized code, reject when the
student is already enrolled in that class, then insert the enrollment for the
current academic term. -/
def handleJoinClass (db : JoinDB) (raw : List Char) (studentId year month newId : Nat) :
    JoinOutcome × JoinDB :=
  if trimChars raw = [] then (.noop, db)
  else
    match getClassByCode db (canonicalizeCode raw) with
    | none => (.notFound, db)
    | some cl =>
      if isEnrolled db studentId cl.id then (.alreadyEnrolled, db)
      else
        match enrollInClass db studentId cl.id year month newId with
        | none => (.insertConflict, db)
        | some db2 => (.joined, db2)

/-- C7: when an inactive class's code is submitted (and no other class shares
that code), the lookup misses, the outcome is NOT_FOUND, and no enrollment is
created. -/
theorem C7_inactive_class_not_found (db : JoinDB) (raw : List Char)
    (studentId year month newId : Nat) (cl : TeacherClass)
    (htrim : trimChars raw ≠ [])
    (hmem : cl ∈ db.classes)
    (hinactive : cl.is_active = false)
    (hcode : canonicalizeCode raw = cl.code)
    (huniq : ∀ c ∈ db.classes, c.code = cl.code → c = cl) :
    handleJoinClass db raw studentId year month newId = (.notFound, db) := by
  have hlookup : getClassByCode db (canonicalizeCode raw) = none := by
    unfold getClassByCode
    rw [List.find?_eq_none]
    intro c hc
    simp only [Bool.and_eq_true, beq_iff_eq]
    rintro ⟨hceq, hactive⟩
    rw [hcode] at hceq
    rw [huniq c hc hceq] at hactive
    rw [hinactive] at hactive
    exact Bool.false_ne_true hactive
  unfold handleJoinClass
  rw [if_neg htrim, hlookup]

/-- Concrete database used to witness C7: one inactive class. -/
def c7Db : JoinDB :=
  { classes := [⟨1, "MATH01".toList, false, 9⟩], enrollments := [] }

theorem C7_witness :
    (trimChars "MATH01".toList ≠ [] ∧
      (⟨1, "MATH01".toList, false, 9⟩ : TeacherClass) ∈ c7Db.classes ∧
      canonicalizeCode "MATH01".toList = (⟨1, "MATH01".toList, false, 9⟩ : TeacherClass).code) ∧
    handleJoinClass c7Db "MATH01".toList 5 2025 3 11 = (.notFound, c7Db) :=
  ⟨⟨by decide, by decide, by decide⟩,
    C7_inactive_class_not_found c7Db "MATH01".toList 5 2025 3 11 ⟨1, "MATH01".toList, false, 9⟩
      (by decide) (by decide) rfl (by decide) (by decide)⟩

/-- Concrete database for C6: one active class with code MATH01, and one
enrollment of student 5 in it recorded for the Spring 2025 term. -/
def c6Db : JoinDB :=
  { classes := [⟨1, "MATH01".toList, true, 9⟩],
    enrollments := [⟨4, 5, 1, 2025, .spring⟩] }

/-- C6 counterexample: student 5 is enrolled in class 1 for (2025, Spring); a
join attempt in September 2025 (month-index 8, hence the different term
(2025, Fall)) still yields ALREADY_ENROLLED instead of succeeding, because
isEnrolled filters on (student_id, class_id) only. -/
theorem C6_counterexample :
    handleJoinClass c6Db "MATH01".toList 5 2025 8 11 = (.alreadyEnrolled, c6Db) ∧
    currentTerm 2025 8 ≠ (2025, Semester.spring) ∧
    (∀ e ∈ c6Db.enrollments, (e.academic_year, e.semester) = (2025, Semester.spring)) := by
  decide

/-- C6 as amended: whenever the submitted code resolves to a class in which
the student already has an enrollment row for ANY academic term - the same
term or a different one - the join attempt yields ALREADY_ENROLLED and the
database is unchanged; the workflow's double-enrollment check is scoped per
(student, class) alone, and only the storage uniqueness constraint is
per (student, class, academic_year, semester). -/
theorem C6_join_already_enrolled (db : JoinDB) (raw : List Char)
    (studentId year month newId : Nat) (cl : TeacherClass)
    (htrim : trimChars raw ≠ [])
    (hlookup : getClassByCode db (canonicalizeCode raw) = some cl)
    (he : ∃ e ∈ db.enrollments, e.student_id = studentId ∧ e.class_id = cl.id) :
    handleJoinClass db raw studentId year month newId = (.alreadyEnrolled, db) := by
  have henr : isEnrolled db studentId cl.id = true := by
    unfold isEnrolled
    rw [List.find?_isSome]
    obtain ⟨e, hmem, h1, h2⟩ := he
    exact ⟨e, hmem, by simp [h1, h2]⟩
  unfold handleJoinClass
  rw [if_neg htrim, hlookup]
  simp [henr]

theorem C6_witness :
    (trimChars "MATH01".toList ≠ [] ∧
      getClassByCode c6Db (canonicalizeCode "MATH01".toList)
        = some ⟨1, "MATH01".toList, true, 9⟩ ∧
      (∃ e ∈ c6Db.enrollments, e.student_id = 5 ∧
        e.class_id = (⟨1, "MATH01".toList, true, 9⟩ : TeacherClass).id)) ∧
    handleJoinClass c6Db "MATH01".toList 5 2026 2 12 = (.alreadyEnrolled, c6Db) :=
  ⟨⟨by decide, by decide, by decide⟩,
    C6_join_already_enrolled c6Db "MATH01".toList 5 2026 2 12 ⟨1, "MATH01".toList, true, 9⟩
      (by decide) (by decide) (by decide)⟩

/-- The role tag of the `profiles` table, src/unnamed/part_000 line 96:
CHECK (role IN ('admin', 'teacher', 'student')). -/
inductive Role where
  | admin | teacher | student
  deriving DecidableEq, BEq, Repr

instance : LawfulBEq Role where
  eq_of_beq := by intro a b h; revert h; cases a <;> cases b <;> decide
  rfl := by intro a; cases a <;> rfl

/-- Profile row: identity key and role. -/
structure ProfileRow where
  id : Nat
  role : Role
  deriving DecidableEq, Repr

/-- Row of `teacher_subjects`, src/unnamed/part_000 lines 116-124. -/
structure TeacherSubjectRow where
  teacher_id : Nat
  subject_id : Nat
  deriving DecidableEq, Repr

/-- Row of `enrollments` (subject schema), src/unnamed/part_000 lines
127-135. -/
structure EnrollmentRow where
  id : Nat
  student_id : Nat
  subject_id : Nat
  deriving DecidableEq, Repr

/-- The slice of database state the grades policies consult. -/
structure PolicyDB where
  profiles : List ProfileRow
  teacher_subjects : List TeacherSubjectRow
  enrollments : List EnrollmentRow
  deriving DecidableEq, Repr

/-- The acting identity's role, resolved from the profiles store. -/
def roleOf (db : PolicyDB) (uid : Nat) : Option Role :=
  (db.profiles.find? (fun p => p.id == uid)).map ProfileRow.role

/-- WITH CHECK clause of policy "Teachers can insert grades for their
subjects", src/unnamed/part_000 lines 388-398: there is an enrollment with
the new row's enrollment_id joined to a teacher_subjects row whose teacher is
the acting identity. -/
def teachersCanInsertGrades (db : PolicyDB) (uid : Nat) (row : Grade) : Bool :=
  db.enrollments.any (fun e =>
    e.id == row.enrollment_id &&
    db.teacher_subjects.any (fun ts => ts.subject_id == e.subject_id && ts.teacher_id == uid))

/-- WITH CHECK clause of policy "Admins can manage all grades",
src/unnamed/part_000 lines 420-434: the acting identity has a profile row
with role admin. -/
def adminsCanManageGrades (db : PolicyDB) (uid : Nat) : Bool :=
  db.profiles.any (fun p => p.id == uid && p.role == .admin)

/-- Grades INSERT under the original policy set of src/unnamed/part_000:
OR across the two policies that cover INSERT on grades. -/
def gradesInsertAllowedOriginal (db : PolicyDB) (uid : Nat) (row : Grade) : Bool :=
  teachersCanInsertGrades db uid row || adminsCanManageGrades db uid

/-- Grades INSERT under the final policy set: policy "Allow authenticated
insert grades" of
src/supabase/migrations/20251101202219_fix_profiles_insert_policy.sql lines
662-665 has WITH CHECK (true) for every authenticated identity, after lines
651-655 of the same migration dropped every earlier grades policy. -/
def gradesInsertAllowedFinal (db : PolicyDB) (uid : Nat) (row : Grade) : Bool :=
  true

/-- Referential sanity of the policy database: profile ids are unique, and
every teacher_subjects row names an existing profile whose role is teacher
(section 3 of the spec: teacher_subjects links teachers to subjects). -/
def wellFormedPolicyDB (db : PolicyDB) : Prop :=
  (∀ p1 ∈ db.profiles, ∀ p2 ∈ db.profiles, p1.id = p2.id → p1 = p2) ∧
  (∀ ts ∈ db.teacher_subjects, ∃ p ∈ db.profiles, p.id = ts.teacher_id ∧ p.role = .teacher)

instance (db : PolicyDB) : Decidable (wellFormedPolicyDB db) := by
  unfold wellFormedPolicyDB; infer_instance

/-- Concrete policy database for C1: a lone student (id 1) enrolled as
student of enrollment 10. -/
def c1Db : PolicyDB :=
  { profiles := [⟨1, .student⟩], teacher_subjects := [], enrollments := [⟨10, 1, 20⟩] }

/-- Grade row that student 1 attempts to insert against enrollment 10. -/
def c1Row : Grade := ⟨10, 1, 80, 100, 1⟩

/-- C1 counterexample: under the final policy set the student identity 1 is
ALLOWED to insert a grade row, not denied, although its role is student. -/
theorem C1_counterexample :
    roleOf c1Db 1 = some .student ∧
    gradesInsertAllowedFinal c1Db 1 c1Row = true := by
  constructor
  · decide
  · rfl

/-- C1 as amended: under the original policy set of part_000 a
well-formed database denies every grade INSERT by an identity whose role is
student, regardless of enrollment relationship; but under the final policy
set ("Allow authenticated insert grades", WITH CHECK (true)) every
authenticated identity, including a student, is allowed to insert. -/
theorem C1_student_grade_insert (db : PolicyDB) (uid : Nat) (row : Grade)
    (hwf : wellFormedPolicyDB db)
    (hrole : roleOf db uid = some .student) :
    gradesInsertAllowedOriginal db uid row = false ∧
    gradesInsertAllowedFinal db uid row = true := by
  have hstud : ∃ p0 ∈ db.profiles, p0.id = uid ∧ p0.role = .student := by
    unfold roleOf at hrole
    cases hfind : db.profiles.find? (fun p => p.id == uid) with
    | none => rw [hfind] at hrole; simp at hrole
    | some p0 =>
      rw [hfind] at hrole
      refine ⟨p0, List.mem_of_find?_eq_some hfind, ?_, ?_⟩
      · have := List.find?_some hfind
        simpa using this
      · simpa using hrole
  have key : ∀ p ∈ db.profiles, p.id = uid → p.role = .student := by
    intro p hp hid
    obtain ⟨p0, hp0, hid0, hrole0⟩ := hstud
    have heq : p = p0 := hwf.1 p hp p0 hp0 (by rw [hid, hid0])
    rw [heq, hrole0]
  refine ⟨?_, rfl⟩
  unfold gradesInsertAllowedOriginal
  have hteach : teachersCanInsertGrades db uid row = false := by
    unfold teachersCanInsertGrades
    rw [List.any_eq_false]
    intro e he hcontra
    rw [Bool.and_eq_true] at hcontra
    obtain ⟨ts, hts, htsp⟩ := List.any_eq_true.mp hcontra.2
    rw [Bool.and_eq_true] at htsp
    have htid : ts.teacher_id = uid := by simpa using htsp.2
    obtain ⟨p, hp, hpid, hprole⟩ := hwf.2 ts hts
    have : p.role = .student := key p hp (by rw [hpid, htid])
    rw [hprole] at this
    exact Role.noConfusion this
  have hadmin : adminsCanManageGrades db uid = false := by
    unfold adminsCanManageGrades
    rw [List.any_eq_false]
    intro p hp hcontra
    rw [Bool.and_eq_true] at hcontra
    have hid : p.id = uid := by simpa using hcontra.1
    have hrole2 : p.role = .admin := by simpa using hcontra.2
    have : p.role = .student := key p hp hid
    rw [hrole2] at this
    exact Role.noConfusion this
  rw [hteach, hadmin]
  rfl

theorem C1_witness :
    (wellFormedPolicyDB c1Db ∧ roleOf c1Db 1 = some .student) ∧
    (gradesInsertAllowedOriginal c1Db 1 c1Row = false ∧
      gradesInsertAllowedFinal c1Db 1 c1Row = true) :=
  ⟨⟨by decide, by decide⟩, C1_student_grade_insert c1Db 1 c1Row (by decide) (by decide)⟩

/-- The tables protected by row-level-security policies across the
migrations. -/
inductive PTable where
  | profiles | subjects | teacher_subjects | enrollments | grades
  | attendance | reports | teacher_classes | student_enrollments
  deriving DecidableEq, BEq, Repr

/-- The four row-level operations a policy can cover; a FOR ALL policy is
recorded under each of the four. -/
inductive POp where
  | select | insert | update | delete
  deriving DecidableEq, Repr

/-- Syntax of a policy's USING / WITH CHECK condition, keeping the structure
relevant to recursion: which tables the condition consults.  `selfCol` is any
comparison between a column of the target row and a constant or auth.uid()
(consults no table); `roleLookup r` is the actor-role subquery
`(SELECT role FROM profiles WHERE id = auth.uid()) = r`, or equivalently
`EXISTS (SELECT 1 FROM profiles WHERE id = auth.uid() AND role = r)`, which
consults profiles; `existsSub ts` is an EXISTS subquery over the listed
tables. -/
inductive PCond where
  | tru : PCond
  | selfCol : PCond
  | roleLookup : Role → PCond
  | existsSub : List PTable → PCond
  | and : PCond → PCond → PCond
  | or : PCond → PCond → PCond
  deriving DecidableEq, Repr

/-- The tables a policy condition consults when evaluated. -/
def PCond.consults : PCond → List PTable
  | .tru => []
  | .selfCol => []
  | .roleLookup _ => [.profiles]
  | .existsSub ts => ts
  | .and a b => a.consults ++ b.consults
  | .or a b => a.consults ++ b.consults

/-- The policy set in force after all migrations have run, one condition per
CREATE POLICY (a FOR ALL policy is listed under each operation).

Provenance, with migration 20251101202219 abbreviated M1 (its second half is
the recursion-fix migration M1b), 20251101210157 M2, 20251101212027 M3 and
20251102022358 M4 (its second half M4b):
profiles - M1b "Allow authenticated read all profiles" (true), "Allow
authenticated insert own profile" (id = uid), "Allow authenticated update own
profile" (id = uid), "Allow authenticated delete profiles" (true); every
earlier profiles policy is dropped by M1b.
subjects - M3 "Allow authenticated users to view subjects" (role admin OR
teacher_id = uid OR (is_active AND role student AND EXISTS enrollments) OR
is_active), "Teachers can create classes" (teacher_id = uid AND role
teacher), "Teachers and admins can update classes" and "Teachers and admins
can delete classes" (role admin OR teacher_id = uid); M4 "Admins can view all
subjects", "Teachers can view all subjects", "Students can view active
subjects" (role student AND is_active), "Teachers and admins can create
subjects" (role IN (teacher, admin)), "Teachers can update own subjects" /
"Teachers can delete own subjects" (role teacher AND teacher_id = uid),
"Admins can update all subjects", "Admins can delete all subjects".
teacher_subjects - M1b blanket read/insert/update/delete (true) plus M2
"Teachers can create subject assignments" (teacher_id = uid AND role
teacher).
enrollments - M1b blanket read/insert/update/delete (true) plus M2 "Students
can enroll in classes" (student_id = uid AND role student AND EXISTS
subjects), "Students can leave classes" (student_id = uid), "Teachers can
manage enrollments in their classes" (FOR ALL, EXISTS subjects) and "Admins
can manage all enrollments" (FOR ALL, role admin).
grades, attendance - M1b blanket policies only (true), every earlier policy
dropped by M1b.
reports - M1b blanket read/update/delete (true) and insert
(generated_by = uid).
teacher_classes - the migration creating its policies is not shipped under
src; modelled from the spec: section 4.1 Class/Subject - read by owning
teacher, admin, or anyone when is_active; insert by role teacher or admin;
update/delete by owning teacher or admin.
student_enrollments - M4b "Students can view their own enrollments"
(student_id = uid), "Teachers can view their class enrollments" (EXISTS
teacher_classes), "Admins can view all enrollments" (role admin), "Students
can enroll in classes" (student_id = uid AND role student), "Students can
delete their own enrollments" (student_id = uid), "Teachers can delete
enrollments from their classes" (EXISTS teacher_classes). -/
def finalPolicies : PTable → POp → List PCond
  | .profiles, .select => [.tru]
  | .profiles, .insert => [.selfCol]
  | .profiles, .update => [.selfCol]
  | .profiles, .delete => [.tru]
  | .subjects, .select =>
      [.or (.roleLookup .admin) (.or .selfCol
          (.or (.and .selfCol (.and (.roleLookup .student) (.existsSub [.enrollments])))
            .selfCol)),
        .roleLookup .admin, .roleLookup .teacher, .and (.roleLookup .student) .selfCol]
  | .subjects, .insert =>
      [.and .selfCol (.roleLookup .teacher), .or (.roleLookup .teacher) (.roleLookup .admin)]
  | .subjects, .update =>
      [.or (.roleLookup .admin) .selfCol, .and (.roleLookup .teacher) .selfCol,
        .roleLookup .admin]
  | .subjects, .delete =>
      [.or (.roleLookup .admin) .selfCol, .and (.roleLookup .teacher) .selfCol,
        .roleLookup .admin]
  | .teacher_subjects, .insert => [.tru, .and .selfCol (.roleLookup .teacher)]
  | .teacher_subjects, _ => [.tru]
  | .enrollments, .select => [.tru, .existsSub [.subjects], .roleLookup .admin]
  | .enrollments, .insert =>
      [.tru, .and .selfCol (.and (.roleLookup .student) (.existsSub [.subjects])),
        .existsSub [.subjects], .roleLookup .admin]
  | .enrollments, .update => [.tru, .existsSub [.subjects], .roleLookup .admin]
  | .enrollments, .delete => [.tru, .selfCol, .existsSub [.subjects], .roleLookup .admin]
  | .grades, _ => [.tru]
  | .attendance, _ => [.tru]
  | .reports, .insert => [.selfCol]
  | .reports, _ => [.tru]
  | .teacher_classes, .select => [.selfCol, .roleLookup .admin]
  | .teacher_classes, .insert => [.roleLookup .teacher, .roleLookup .admin]
  | .teacher_classes, .update => [.selfCol, .roleLookup .admin]
  | .teacher_classes, .delete => [.selfCol, .roleLookup .admin]
  | .student_enrollments, .select =>
      [.selfCol, .existsSub [.teacher_classes], .roleLookup .admin]
  | .student_enrollments, .insert => [.and .selfCol (.roleLookup .student)]
  | .student_enrollments, .update => []
  | .student_enrollments, .delete => [.selfCol, .existsSub [.teacher_classes]]

/-- C9: in the final policy set, no policy on any table consults the table it
protects for any operation; the policies of the profiles table consult no
table at all, so the actor-role resolution - which consults exactly profiles -
is a non-recursive lookup and every policy evaluation bottoms out after one
level of subquery. -/
theorem C9_policies_not_self_referential :
    (∀ t : PTable, ∀ op : POp,
      (finalPolicies t op).all (fun c => !((PCond.consults c).contains t)) = true) ∧
    (∀ op : POp, (finalPolicies .profiles op).all (fun c => (PCond.consults c).isEmpty) = true) ∧
    (∀ r : Role, PCond.consults (.roleLookup r) = [.profiles]) := by
  refine ⟨?_, ?_, ?_⟩
  · intro t op
    cases t <;> cases op <;> rfl
  · intro op
    cases op <;> rfl
  · intro r
    rfl

end Academia
